import Mathlib

/-!
Verification of the turcuaz visitor-collection server.

The development shallowly embeds the JavaScript functions of the repository
into Lean: strings are `String`/`List Char`, JavaScript numbers used by the
fingerprint hash are `Int` with explicit signed-32-bit wrapping, absent or
falsy header values are the empty string (an absent header and an empty
header behave identically under JavaScript truthiness in all embedded code
paths), exceptions are `Except String`, and external effects (geo database,
canvas rendering, browser globals, clocks, randomness) are passed in as
explicit parameters.
-/

namespace Turcuaz

/-! ## JavaScript string primitives (structural, kernel-evaluable) -/

/-- Model of JavaScript `String.prototype.trim` on char lists (ASCII
whitespace; the repository only ever feeds header text). -/
def trimL (l : List Char) : List Char :=
  ((l.dropWhile Char.isWhitespace).reverse.dropWhile Char.isWhitespace).reverse

/-- Does `hay` contain `needle` as a contiguous substring
(JavaScript `String.prototype.includes`)? -/
def containsSub (needle : List Char) : List Char → Bool
  | [] => needle.isEmpty
  | c :: t => needle.isPrefixOf (c :: t) || containsSub needle t

/-- Replace the first occurrence of `needle` by `repl` (JavaScript
`String.prototype.replace` with a string pattern replaces only the first
occurrence). -/
def replaceFirstL (needle repl : List Char) : List Char → List Char
  | [] => if needle.isEmpty then repl else []
  | c :: t =>
    if needle.isPrefixOf (c :: t) then repl ++ (c :: t).drop needle.length
    else c :: replaceFirstL needle repl t

/-- Split on the comma character (JavaScript `String.prototype.split(',')`):
always returns at least one (possibly empty) piece. -/
def splitCommaL : List Char → List (List Char)
  | [] => [[]]
  | c :: t =>
    match splitCommaL t with
    | [] => [[]]
    | h :: r => if c = ',' then [] :: h :: r else (c :: h) :: r

/-- First capture of the JavaScript regular expression `for=([^;]+)` applied
to `hay`: scanning left to right, at the first position where the literal
`for=` is followed by at least one non-semicolon character, capture the
maximal run of non-semicolon characters; `none` when no position matches. -/
def matchForL : List Char → Option (List Char)
  | [] => none
  | c :: t =>
    if ['f', 'o', 'r', '='].isPrefixOf (c :: t) then
      let cap := ((c :: t).drop 4).takeWhile (fun d => d ≠ ';')
      if cap.isEmpty then matchForL t else some cap
    else matchForL t

/-- String-level wrapper for `trimL`. -/
def jsTrim (s : String) : String := ⟨trimL s.data⟩

/-- The IPv4-in-IPv6 marker `::ffff:` stripped by the server. -/
def ffffMarker : List Char := [':', ':', 'f', 'f', 'f', 'f', ':']

/-! ## Client-IP resolver (`getClientIP`, src/unnamed/part_001 lines 85-133,
identical in src/unnamed/part_002 lines 67-103) -/

/-- Loop body of `getClientIP` normalizing one candidate source: trim; if the
source contains a comma take the first (trimmed) entry; if the source
contains `for=` take the first regex capture; strip the first `::ffff:`;
trim again. -/
def normalizeL (source : List Char) : List Char :=
  let ip := trimL source
  let ip := if containsSub [','] source then trimL ((splitCommaL source).headD []) else ip
  let ip :=
    if containsSub ['f', 'o', 'r', '='] source then
      match matchForL source with
      | some cap => trimL cap
      | none => ip
    else ip
  let ip := replaceFirstL ffffMarker [] ip
  trimL ip

/-- String-level normalization of one candidate IP source. -/
def normalizeSource (source : String) : String := ⟨normalizeL source.data⟩

/-- Acceptance test of the `getClientIP` loop: the normalized value is kept
when it is truthy (non-empty) and differs from the two loopback literals. -/
def acceptIP (ip : String) : Bool :=
  ip != "" && ip != "::1" && ip != "127.0.0.1"

/-- The `for (const source of sources)` loop of `getClientIP`: skip falsy
sources, return the first normalized candidate passing `acceptIP`, and fall
back to `"127.0.0.1"` when the list is exhausted. -/
def getClientIPFrom : List String → String
  | [] => "127.0.0.1"
  | s :: rest =>
    if s != "" then
      let ip := normalizeSource s
      if acceptIP ip then ip else getClientIPFrom rest
    else getClientIPFrom rest

/-- The candidate header/connection sources of `getClientIP`, in source
order; absent values are the empty string. -/
structure Request where
  cfConnectingIP : String
  xRealIP : String
  xForwardedFor : String
  forwarded : String
  reqIp : String
  socketRemoteAddress : String
  connectionRemoteAddress : String
deriving DecidableEq

/-- Priority list exactly as written in `getClientIP`. -/
def sourcesOf (req : Request) : List String :=
  [req.cfConnectingIP, req.xRealIP, req.xForwardedFor, req.forwarded,
   req.reqIp, req.socketRemoteAddress, req.connectionRemoteAddress]

/-- `getClientIP` from src/unnamed/part_001. -/
def getClientIP (req : Request) : String := getClientIPFrom (sourcesOf req)

/-- Spec-side description of the resolver (§4.1 of the specification): return
the first candidate source whose normalization is non-empty and not a
loopback literal, else the loopback fallback. -/
def resolveSpec (sources : List String) : String :=
  match sources.find? (fun s => acceptIP (normalizeSource s)) with
  | some s => normalizeSource s
  | none => "127.0.0.1"

theorem normalizeSource_empty : normalizeSource "" = "" := by decide

theorem getClientIPFrom_eq_resolveSpec (sources : List String) :
    getClientIPFrom sources = resolveSpec sources := by
  induction sources with
  | nil => rfl
  | cons s rest ih =>
    by_cases hs : s = ""
    · subst hs
      simp [getClientIPFrom, resolveSpec, List.find?, normalizeSource_empty, acceptIP] at *
      exact ih
    · have hs' : (s != "") = true := by simpa using hs
      by_cases ha : acceptIP (normalizeSource s) = true
      · simp [getClientIPFrom, resolveSpec, List.find?, hs', ha]
      · have ha' : acceptIP (normalizeSource s) = false := by simpa using ha
        simp [getClientIPFrom, resolveSpec, List.find?, hs', ha'] at *
        exact ih

theorem getClientIPFrom_ne_empty (sources : List String) :
    getClientIPFrom sources ≠ "" := by
  induction sources with
  | nil => simp [getClientIPFrom]
  | cons s rest ih =>
    simp only [getClientIPFrom]
    split
    · split
      · rename_i hacc
        simp only [acceptIP, Bool.and_eq_true, bne_iff_ne, ne_eq] at hacc
        exact hacc.1.1
      · exact ih
    · exact ih

theorem getClientIPFrom_cons_accept (s : String) (rest : List String)
    (h : acceptIP (normalizeSource s) = true) :
    getClientIPFrom (s :: rest) = normalizeSource s := by
  have hs : (s != "") = true := by
    by_contra hc
    have : s = "" := by simpa using hc
    rw [this, normalizeSource_empty] at h
    exact absurd h (by decide)
  rw [getClientIPFrom, if_pos hs, if_pos h]

/-- Claim C1: the client-IP resolver examines the candidate sources in the
fixed priority order cf-connecting-ip, x-real-ip, x-forwarded-for, forwarded,
framework `req.ip`, then socket/connection remote address, and returns the
first candidate that, after normalization, is non-empty and not a loopback
literal (`"::1"`/`"127.0.0.1"`); in particular, with cf-connecting-ip
`"9.9.9.9"` and x-forwarded-for `"1.1.1.1, 2.2.2.2"` it returns `"9.9.9.9"`
for all values of the lower-priority sources. -/
theorem claim_C1_ip_priority_order :
    (∀ req : Request, getClientIP req = resolveSpec (sourcesOf req)) ∧
    (∀ xr fwd rip sock conn : String,
      getClientIP ⟨"9.9.9.9", xr, "1.1.1.1, 2.2.2.2", fwd, rip, sock, conn⟩ = "9.9.9.9") := by
  constructor
  · intro req
    exact getClientIPFrom_eq_resolveSpec (sourcesOf req)
  · intro xr fwd rip sock conn
    show getClientIPFrom ("9.9.9.9" :: _) = _
    rw [getClientIPFrom_cons_accept "9.9.9.9" _ (by decide)]
    decide

/-- Claim C3: normalization of a candidate source trims whitespace, takes the
first entry of a comma-separated forwarded-for chain, extracts the address
after `for=` in an RFC-7239-style value, and strips the `::ffff:` marker; in
particular the resolver returns `"203.0.113.5"` from x-forwarded-for
`"203.0.113.5, 70.41.3.18"` and `"198.51.100.23"` from a lone forwarded
header `"for=198.51.100.23;proto=https"`. -/
theorem claim_C3_normalization :
    getClientIP ⟨"", "", "203.0.113.5, 70.41.3.18", "", "", "", ""⟩ = "203.0.113.5" ∧
    getClientIP ⟨"", "", "", "for=198.51.100.23;proto=https", "", "", ""⟩ = "198.51.100.23" ∧
    normalizeSource "  8.8.8.8 " = "8.8.8.8" ∧
    normalizeSource "::ffff:9.9.9.9" = "9.9.9.9" := by
  refine ⟨?_, ?_, ?_, ?_⟩ <;> decide

/-- Claim C8 is refuted: a malformed x-forwarded-for value containing no
parseable IP address is not treated as empty — the resolver returns the
malformed value itself instead of continuing to the lower-priority source
`"8.8.8.8"`. -/
theorem claim_C8_counterexample :
    getClientIP ⟨"", "", "not-an-ip-at-all", "", "8.8.8.8", "", ""⟩ = "not-an-ip-at-all" ∧
    getClientIP ⟨"", "", "not-an-ip-at-all", "", "8.8.8.8", "", ""⟩ ≠ "8.8.8.8" := by
  refine ⟨?_, ?_⟩ <;> decide

/-- Claim C8 amended: the resolver performs no IP-format validation. A
candidate source value is skipped (search continuing with the next
lower-priority source) exactly when its normalized form is the empty string
or one of the loopback literals `"::1"`/`"127.0.0.1"` — in which case the
result over the remaining sources is unchanged — and conversely every value
whose normalized form is non-empty and not a loopback literal is returned
as-is, whether or not it parses as an IP address; e.g. the value `","`
(whose first comma-entry is empty) and the value `"::ffff:127.0.0.1"`
(which normalizes to a loopback literal) are skipped in favor of the
lower-priority `"8.8.8.8"`. -/
theorem claim_C8_amended :
    (∀ (s : String) (rest : List String),
      (normalizeSource s = "" ∨ normalizeSource s = "::1" ∨
        normalizeSource s = "127.0.0.1") →
      getClientIPFrom (s :: rest) = getClientIPFrom rest) ∧
    (∀ (s : String) (rest : List String),
      normalizeSource s ≠ "" → normalizeSource s ≠ "::1" →
      normalizeSource s ≠ "127.0.0.1" →
      getClientIPFrom (s :: rest) = normalizeSource s) ∧
    getClientIP ⟨"", "", ",", "", "8.8.8.8", "", ""⟩ = "8.8.8.8" ∧
    getClientIP ⟨"", "", "::ffff:127.0.0.1", "", "8.8.8.8", "", ""⟩ = "8.8.8.8" := by
  refine ⟨?_, ?_, by decide, by decide⟩
  · intro s rest h
    have hacc : acceptIP (normalizeSource s) = false := by
      rcases h with h1 | h1 | h1 <;> rw [h1] <;> decide
    rw [getClientIPFrom]
    split
    · rw [if_neg (by rw [hacc]; simp)]
    · rfl
  · intro s rest h1 h2 h3
    have hacc : acceptIP (normalizeSource s) = true := by
      simp [acceptIP, h1, h2, h3]
    exact getClientIPFrom_cons_accept s rest hacc

/-- Witness for the amended claim C8: the skip direction exercised at a
value normalizing to a loopback literal, and the returned-as-is direction
exercised at a value that is no parseable IP address. -/
theorem claim_C8_amended_witness :
    getClientIPFrom ("::ffff:127.0.0.1" :: ["8.8.8.8"]) = getClientIPFrom ["8.8.8.8"] ∧
    getClientIPFrom ("not-an-ip-at-all" :: ["8.8.8.8"]) = normalizeSource "not-an-ip-at-all" :=
  ⟨claim_C8_amended.1 "::ffff:127.0.0.1" ["8.8.8.8"] (by decide),
   claim_C8_amended.2.1 "not-an-ip-at-all" ["8.8.8.8"] (by decide) (by decide) (by decide)⟩

/-! ## Locality classifier (`isLocalhost`, src/unnamed/part_001 lines 43-82,
identical in src/unnamed/part_002 lines 44-64) -/

/-- The `localIPs` literal list of `isLocalhost`. -/
def localIPs : List String := ["127.0.0.1", "::1", "localhost"]

/-- The `privateIPRanges` dotted-prefix table of `isLocalhost`, enumerating
the three RFC-1918 blocks. -/
def privateIPRanges : List String :=
  ["192.168.", "10.", "172.16.", "172.17.", "172.18.", "172.19.",
   "172.20.", "172.21.", "172.22.", "172.23.", "172.24.", "172.25.",
   "172.26.", "172.27.", "172.28.", "172.29.", "172.30.", "172.31."]

/-- The cleanup applied by `isLocalhost` before matching: trim, then strip
the first `::ffff:`. -/
def cleanIP (ip : String) : String := ⟨replaceFirstL ffffMarker [] (trimL ip.data)⟩

/-- `isLocalhost` from src/unnamed/part_001: a falsy (empty) input is local;
otherwise the cleaned value is matched exactly against `localIPs` and by
prefix against `privateIPRanges`. -/
def isLocalhost (ip : String) : Bool :=
  if ip = "" then true
  else
    let c := cleanIP ip
    localIPs.contains c || privateIPRanges.any (fun r => r.data.isPrefixOf c.data)

/-- Claim C5: `isLocalhost` returns true for the empty input, and for a
non-empty input returns true exactly when the trimmed, `::ffff:`-stripped
value equals one of the loopback literals or starts with one of the
enumerated RFC-1918 dotted prefixes; the six concrete examples evaluate as
the claim states. -/
theorem claim_C5_isLocalhost :
    isLocalhost "" = true ∧
    (∀ ip : String, ip ≠ "" →
      (isLocalhost ip = true ↔
        cleanIP ip ∈ localIPs ∨
          ∃ r ∈ privateIPRanges, r.data.isPrefixOf (cleanIP ip).data = true)) ∧
    isLocalhost "127.0.0.1" = true ∧ isLocalhost "::1" = true ∧
    isLocalhost "192.168.1.50" = true ∧ isLocalhost "10.0.0.5" = true ∧
    isLocalhost "172.20.3.4" = true ∧ isLocalhost "8.8.8.8" = false := by
  refine ⟨by decide, ?_, by decide, by decide, by decide, by decide, by decide, by decide⟩
  intro ip hip
  rw [isLocalhost]
  simp only [if_neg hip, Bool.or_eq_true, List.contains_iff_exists_mem_beq, List.any_eq_true]
  constructor
  · rintro (⟨x, hx, hbeq⟩ | h)
    · left
      have : cleanIP ip = x := by simpa using hbeq
      rw [this]; exact hx
    · right; exact h
  · rintro (h | h)
    · left; exact ⟨cleanIP ip, h, by simp⟩
    · right; exact h

/-- Witness for claim C5 instantiated at the public address `"8.8.8.8"`. -/
theorem claim_C5_isLocalhost_witness :
    isLocalhost "8.8.8.8" = true ↔
      cleanIP "8.8.8.8" ∈ localIPs ∨
        ∃ r ∈ privateIPRanges, r.data.isPrefixOf (cleanIP "8.8.8.8").data = true :=
  claim_C5_isLocalhost.2.1 "8.8.8.8" (by decide)

/-! ## Geo lookup and record creation (`collectEnhancedUserData`,
src/unnamed/part_001 lines 136-259). The geo database, the resolved
timezone, the clock and the freshly generated session id are external
effects, passed in as parameters; numeric/array geo fields (`ll`, `metro`,
`range`) not examined by any claim are omitted from the embedding. -/

/-- A record of the `geoip-lite` database (the fields the server reads).
`asInfo` is optional because the localhost placeholder object carries no
`as` property. -/
structure Geo where
  country : String
  region : String
  city : String
  timezone : String
  isp : String
  org : String
  asInfo : Option String
deriving DecidableEq

/-- The synthetic placeholder geo object built for localhost visits
(src/unnamed/part_001 lines 148-161). -/
def localhostGeo (clientTz : String) : Geo :=
  { country := "Localhost", region := "Development", city := "Local Machine",
    timezone := if clientTz = "" then "UTC" else clientTz,
    isp := "Local Network", org := "Development Environment", asInfo := none }

/-- JavaScript `x || 'Unknown'` on a string. -/
def orUnknown (s : String) : String := if s = "" then "Unknown" else s

/-- The `geo` sub-object of the visitor record (lines 222-233): every field
defaulted with `|| ...` sentinels. -/
structure GeoOut where
  country : String
  region : String
  city : String
  timezone : String
  isp : String
  org : String
  asOut : String
deriving DecidableEq

/-- Projection of a database/placeholder geo record onto the persisted
`geo` sub-object. -/
def geoOut (g : Geo) : GeoOut :=
  { country := orUnknown g.country, region := orUnknown g.region,
    city := orUnknown g.city,
    timezone := if g.timezone = "" then "UTC" else g.timezone,
    isp := orUnknown g.isp, org := orUnknown g.org,
    asOut := match g.asInfo with
             | some a => orUnknown a
             | none => "Unknown" }

/-- Result of `ua-parser-js` on the user-agent string, treated as an
external input (the library is not part of this repository). -/
structure UAResult where
  browserName : String
  browserVersion : String
  osName : String
  osVersion : String
  deviceType : String
deriving DecidableEq

/-- The fields of the visitor record examined by the claims (timestamp,
session, locality flag, network ip, geo, browser/os/device display fields,
screen and language). -/
structure UserData where
  timestamp : String
  sessionId : String
  isLocal : Bool
  networkIp : String
  geo : Option GeoOut
  browserName : String
  browserVersion : String
  osName : String
  osVersion : String
  deviceType : String
  screenWidth : String
  screenHeight : String
  localeLanguage : String
deriving DecidableEq

/-- `collectEnhancedUserData` from src/unnamed/part_001: resolve the IP,
classify locality, look up geo (substituting the localhost placeholder when
the IP is local and the lookup missed), and build the record. -/
def collectEnhancedUserData (req : Request) (db : String → Option Geo)
    (clientTz now cookieSess freshSess acceptLanguage screenW screenH : String)
    (ua : UAResult) : UserData :=
  let clientIP := getClientIP req
  let isLocal := isLocalhost clientIP
  let geo0 := db clientIP
  let geo := if isLocal && geo0.isNone then some (localhostGeo clientTz) else geo0
  { timestamp := now,
    sessionId := if cookieSess = "" then freshSess else cookieSess,
    isLocal := isLocal,
    networkIp := clientIP,
    geo := geo.map geoOut,
    browserName := orUnknown ua.browserName,
    browserVersion := orUnknown ua.browserVersion,
    osName := orUnknown ua.osName,
    osVersion := orUnknown ua.osVersion,
    deviceType := if ua.deviceType = "" then "desktop" else ua.deviceType,
    screenWidth := screenW,
    screenHeight := screenH,
    localeLanguage := if acceptLanguage = "" then "Unknown" else acceptLanguage }

/-- Claim C4: every record produced by `collectEnhancedUserData` carries the
resolved (always non-empty) IP and the creation timestamp, and when every
candidate source normalizes to the empty string or a loopback literal the
resolver returns the named fallback `"127.0.0.1"` (it is a total function
and never fails). -/
theorem claim_C4_record_invariants :
    (∀ (req : Request) (db : String → Option Geo)
       (clientTz now cookieSess freshSess al sw sh : String) (ua : UAResult),
      (collectEnhancedUserData req db clientTz now cookieSess freshSess al sw sh ua).networkIp
          = getClientIP req ∧
      (collectEnhancedUserData req db clientTz now cookieSess freshSess al sw sh ua).networkIp
          ≠ "" ∧
      (collectEnhancedUserData req db clientTz now cookieSess freshSess al sw sh ua).timestamp
          = now) ∧
    (∀ sources : List String,
      (∀ s ∈ sources, normalizeSource s = "" ∨ normalizeSource s = "::1" ∨
        normalizeSource s = "127.0.0.1") →
      getClientIPFrom sources = "127.0.0.1") := by
  constructor
  · intro req db clientTz now cookieSess freshSess al sw sh ua
    exact ⟨rfl, getClientIPFrom_ne_empty _, rfl⟩
  · intro sources h
    induction sources with
    | nil => rfl
    | cons s rest ih =>
      have hs := h s (List.mem_cons_self s rest)
      have hacc : acceptIP (normalizeSource s) = false := by
        rcases hs with h1 | h1 | h1 <;> rw [h1] <;> decide
      rw [getClientIPFrom]
      have ihr := ih (fun t ht => h t (List.mem_cons_of_mem s ht))
      split
      · rw [if_neg (by rw [hacc]; simp)]
        exact ihr
      · exact ihr

/-- Witness for claim C4 at a source list whose entries are absent,
whitespace, and the mapped loopback literal. -/
theorem claim_C4_record_invariants_witness :
    getClientIPFrom ["", "   ", "::ffff:127.0.0.1"] = "127.0.0.1" :=
  claim_C4_record_invariants.2 ["", "   ", "::ffff:127.0.0.1"] (by decide)

/-- Claim C6: when the resolved IP is classified local/private and the geo
database lookup misses, the persisted record carries the non-null synthetic
placeholder geo (country `"Localhost"`, region `"Development"`); when the
resolved IP is not local/private and the lookup misses, the record's geo
field is null. -/
theorem claim_C6_geo_placeholder :
    ∀ (req : Request) (db : String → Option Geo)
      (clientTz now cookieSess freshSess al sw sh : String) (ua : UAResult),
      (isLocalhost (getClientIP req) = true → db (getClientIP req) = none →
        (collectEnhancedUserData req db clientTz now cookieSess freshSess al sw sh ua).geo
          = some (geoOut (localhostGeo clientTz)) ∧
        (geoOut (localhostGeo clientTz)).country = "Localhost" ∧
        (geoOut (localhostGeo clientTz)).region = "Development") ∧
      (isLocalhost (getClientIP req) = false → db (getClientIP req) = none →
        (collectEnhancedUserData req db clientTz now cookieSess freshSess al sw sh ua).geo
          = none) := by
  intro req db clientTz now cookieSess freshSess al sw sh ua
  constructor
  · intro hloc hmiss
    refine ⟨?_, by simp [geoOut, localhostGeo, orUnknown], by simp [geoOut, localhostGeo, orUnknown]⟩
    simp [collectEnhancedUserData, hloc, hmiss]
  · intro hloc hmiss
    simp [collectEnhancedUserData, hloc, hmiss]

/-- Witness for claim C6: an all-empty request resolves to the loopback
fallback (local, lookup misses on the empty database, placeholder
substituted), while a request carrying the public address `"8.8.8.8"`
yields a null geo on a database miss. -/
theorem claim_C6_geo_placeholder_witness :
    (collectEnhancedUserData ⟨"", "", "", "", "", "", ""⟩ (fun _ => none)
        "UTC" "t0" "" "s0" "" "" "" ⟨"", "", "", "", ""⟩).geo
      = some (geoOut (localhostGeo "UTC")) ∧
    (collectEnhancedUserData ⟨"8.8.8.8", "", "", "", "", "", ""⟩ (fun _ => none)
        "UTC" "t0" "" "s0" "" "" "" ⟨"", "", "", "", ""⟩).geo
      = none := by
  constructor
  · exact ((claim_C6_geo_placeholder ⟨"", "", "", "", "", "", ""⟩ (fun _ => none)
      "UTC" "t0" "" "s0" "" "" "" ⟨"", "", "", "", ""⟩).1 (by decide) rfl).1
  · exact (claim_C6_geo_placeholder ⟨"8.8.8.8", "", "", "", "", "", ""⟩ (fun _ => none)
      "UTC" "t0" "" "s0" "" "" "" ⟨"", "", "", "", ""⟩).2 (by decide) rfl

/-! ## Proxy/VPN heuristic classifier (`detectProxyVPN`,
src/unnamed/part_002 lines 106-148) -/

/-- The request headers examined by `detectProxyVPN`; absent headers are the
empty string. -/
structure ProxyHeaders where
  via : String
  xProxyId : String
  xForwardedProto : String
  cfRay : String
  cfIpcountry : String
deriving DecidableEq

/-- The indicator object returned by `detectProxyVPN`. -/
structure ProxyVPNIndicators where
  usingVPN : Bool
  usingProxy : Bool
  usingTor : Bool
  evidence : List String
deriving DecidableEq

/-- The `knownVPNPatterns` table: each anchored regular expression
`/^a\.b\./` is a literal dotted-decimal leading-match on the IP string. -/
def knownVPNPats : List String :=
  ["104.16.", "172.64.", "185.159.", "192.110.", "209.95."]

/-- `detectProxyVPN` from src/unnamed/part_002: flag a proxy on either
header group (one evidence string per matching group), then flag a VPN on
the first matching table entry (the loop breaks after one match; the
evidence rendering of the matched pattern is abbreviated here to the dotted
literal). -/
def detectProxyVPN (h : ProxyHeaders) (ip : String) : ProxyVPNIndicators :=
  let ind0 : ProxyVPNIndicators :=
    { usingVPN := false, usingProxy := false, usingTor := false, evidence := [] }
  let ind1 :=
    if h.via != "" || h.xProxyId != "" || h.xForwardedProto != "" then
      { ind0 with usingProxy := true,
                  evidence := ind0.evidence ++ ["Proxy headers detected"] }
    else ind0
  let ind2 :=
    if h.cfRay != "" || h.cfIpcountry != "" then
      { ind1 with usingProxy := true,
                  evidence := ind1.evidence ++ ["Cloudflare headers detected"] }
    else ind1
  match knownVPNPats.find? (fun p => p.data.isPrefixOf ip.data) with
  | some p =>
      { ind2 with usingVPN := true,
                  evidence := ind2.evidence ++ ["IP matches VPN pattern: " ++ p] }
  | none => ind2

/-- Claim C7: `detectProxyVPN` sets `usingProxy` exactly when one of the
five proxy-indicating headers (via, x-proxy-id, x-forwarded-proto, cf-ray,
cf-ipcountry) is present (recording an evidence string per matching header
group), and sets `usingVPN` exactly when some entry of the fixed VPN-prefix
table leads the resolved IP string. -/
theorem detectProxyVPN_usingVPN_val (h : ProxyHeaders) (ip : String) :
    (detectProxyVPN h ip).usingVPN
      = (knownVPNPats.find? (fun p => p.data.isPrefixOf ip.data)).isSome := by
  unfold detectProxyVPN
  rcases hf : knownVPNPats.find? (fun p => p.data.isPrefixOf ip.data) with _ | p <;>
    simp only [hf] <;> (try split_ifs) <;> simp_all

theorem detectProxyVPN_usingProxy_val (h : ProxyHeaders) (ip : String) :
    (detectProxyVPN h ip).usingProxy
      = ((h.via != "" || h.xProxyId != "" || h.xForwardedProto != "") ||
         (h.cfRay != "" || h.cfIpcountry != "")) := by
  unfold detectProxyVPN
  rcases hf : knownVPNPats.find? (fun p => p.data.isPrefixOf ip.data) with _ | p <;>
    simp only [hf] <;> (try split_ifs) <;> simp_all

theorem detectProxyVPN_evidence_proxy (h : ProxyHeaders) (ip : String)
    (hc : (h.via != "" || h.xProxyId != "" || h.xForwardedProto != "") = true) :
    "Proxy headers detected" ∈ (detectProxyVPN h ip).evidence := by
  unfold detectProxyVPN
  rcases hf : knownVPNPats.find? (fun p => p.data.isPrefixOf ip.data) with _ | p <;>
    simp only [hf] <;> (try split_ifs) <;> simp_all

theorem detectProxyVPN_evidence_cf (h : ProxyHeaders) (ip : String)
    (hc : (h.cfRay != "" || h.cfIpcountry != "") = true) :
    "Cloudflare headers detected" ∈ (detectProxyVPN h ip).evidence := by
  unfold detectProxyVPN
  rcases hf : knownVPNPats.find? (fun p => p.data.isPrefixOf ip.data) with _ | p <;>
    simp only [hf] <;> (try split_ifs) <;> simp_all

/-- Claim C7: `detectProxyVPN` sets `usingProxy` exactly when one of the
five proxy-indicating headers (via, x-proxy-id, x-forwarded-proto, cf-ray,
cf-ipcountry) is present (recording an evidence string per matching header
group), and sets `usingVPN` exactly when some entry of the fixed VPN-prefix
table leads the resolved IP string. -/
theorem claim_C7_proxy_vpn :
    ∀ (h : ProxyHeaders) (ip : String),
      ((detectProxyVPN h ip).usingProxy = true ↔
        (h.via ≠ "" ∨ h.xProxyId ≠ "" ∨ h.xForwardedProto ≠ "" ∨
          h.cfRay ≠ "" ∨ h.cfIpcountry ≠ "")) ∧
      ((detectProxyVPN h ip).usingVPN = true ↔
        ∃ p ∈ knownVPNPats, p.data.isPrefixOf ip.data = true) ∧
      ((h.via ≠ "" ∨ h.xProxyId ≠ "" ∨ h.xForwardedProto ≠ "") →
        "Proxy headers detected" ∈ (detectProxyVPN h ip).evidence) ∧
      ((h.cfRay ≠ "" ∨ h.cfIpcountry ≠ "") →
        "Cloudflare headers detected" ∈ (detectProxyVPN h ip).evidence) := by
  intro h ip
  refine ⟨?_, ?_, ?_, ?_⟩
  · rw [detectProxyVPN_usingProxy_val]
    simp only [Bool.or_eq_true, bne_iff_ne, ne_eq]
    tauto
  · rw [detectProxyVPN_usingVPN_val]
    exact List.find?_isSome
  · intro hc
    exact detectProxyVPN_evidence_proxy h ip (by simp only [Bool.or_eq_true, bne_iff_ne]; tauto)
  · intro hc
    exact detectProxyVPN_evidence_cf h ip (by simp only [Bool.or_eq_true, bne_iff_ne]; tauto)

/-- Witness for claim C7 at a request carrying a `via` header and a
Cloudflare-range IP. -/
theorem claim_C7_proxy_vpn_witness :
    "Proxy headers detected" ∈
      (detectProxyVPN ⟨"1.1 relay", "", "", "", ""⟩ "104.16.0.1").evidence ∧
    (detectProxyVPN ⟨"1.1 relay", "", "", "", ""⟩ "104.16.0.1").usingVPN = true :=
  ⟨(claim_C7_proxy_vpn ⟨"1.1 relay", "", "", "", ""⟩ "104.16.0.1").2.2.1
      (Or.inl (by decide)),
   (claim_C7_proxy_vpn ⟨"1.1 relay", "", "", "", ""⟩ "104.16.0.1").2.1.mpr
      ⟨"104.16.", by decide, by decide⟩⟩

/-! ## Fingerprint hashing (src/fingerprint.js). JavaScript `<<` and `&`
coerce to signed 32-bit integers; the per-step computation
`hash = ((hash << 5) - hash) + charCode; hash = hash & hash` is embedded on
`Int` with explicit wrapping. Canvas rendering and the browser globals
(`navigator`, `screen`) are external effects: they enter as `Except`
parameters, an exception being the `.error` case. -/

/-- Coercion of a JavaScript number to a signed 32-bit integer (`ToInt32`). -/
def toInt32 (n : Int) : Int := (n + 2 ^ 31) % 2 ^ 32 - 2 ^ 31

/-- One iteration of the rolling-hash loop:
`hash = ((hash << 5) - hash) + c` followed by `hash = hash & hash`. -/
def hashStep (hash : Int) (c : Nat) : Int :=
  toInt32 (toInt32 (hash * 2 ^ 5) - hash + c)

/-- The full rolling hash of a character sequence (both
`getCanvasFingerprint` and `generateBrowserFingerprint` run this exact
loop starting from `hash = 0`). -/
def hashString (s : List Char) : Int :=
  s.foldl (fun h c => hashStep h c.toNat) 0

/-- Value returned by `getCanvasFingerprint`: either the hash record or the
`error:` object produced by its local `catch`. -/
inductive CanvasResult where
  | hashed (dataHash : Int) (width height : Nat)
  | errObj (msg : String)
deriving DecidableEq

/-- `getCanvasFingerprint` (src/fingerprint.js lines 9-42): the whole body
runs inside `try`; rendering/serialization is the external `render`
computation producing the encoded image string; any exception is caught
locally and returned as an error object. -/
def getCanvasFingerprint (render : Except String String) : CanvasResult :=
  match render with
  | .ok dataUrl => .hashed (hashString dataUrl.data) 200 200
  | .error msg => .errObj msg

theorem toInt32_range (n : Int) : -(2 ^ 31) ≤ toInt32 n ∧ toInt32 n < 2 ^ 31 := by
  unfold toInt32
  constructor
  · have h := Int.emod_nonneg (n + 2 ^ 31) (by norm_num : (2 ^ 32 : Int) ≠ 0)
    omega
  · have h := Int.emod_lt_of_pos (n + 2 ^ 31) (by norm_num : (0 : Int) < 2 ^ 32)
    omega

theorem hashString_range (s : List Char) :
    -(2 ^ 31) ≤ hashString s ∧ hashString s < 2 ^ 31 := by
  suffices h : ∀ (l : List Char) (a : Int), -(2 ^ 31) ≤ a → a < 2 ^ 31 →
      -(2 ^ 31) ≤ l.foldl (fun h c => hashStep h c.toNat) a ∧
        l.foldl (fun h c => hashStep h c.toNat) a < 2 ^ 31 by
    exact h s 0 (by norm_num) (by norm_num)
  intro l
  induction l with
  | nil => intro a h1 h2; exact ⟨h1, h2⟩
  | cons c t ih =>
    intro a _ _
    have hr := toInt32_range (toInt32 (a * 2 ^ 5) - a + c.toNat)
    exact ih (hashStep a c.toNat) hr.1 hr.2

/-- Claim C9: the canvas fingerprint hash is a deterministic total function
of the encoded image string — the rolling hash of every string lies in the
signed 32-bit range, and identical encoded-image strings produce the
identical `getCanvasFingerprint` result. -/
theorem claim_C9_canvas_hash :
    (∀ s : String, -(2 ^ 31) ≤ hashString s.data ∧ hashString s.data < 2 ^ 31) ∧
    (∀ u v : String, u = v →
      getCanvasFingerprint (Except.ok u) = getCanvasFingerprint (Except.ok v)) ∧
    (∀ u : String,
      getCanvasFingerprint (Except.ok u) = CanvasResult.hashed (hashString u.data) 200 200) := by
  refine ⟨fun s => hashString_range s.data, fun u v h => by rw [h], fun u => rfl⟩

/-- Witness for claim C9 at the concrete encoded-image string `"data:x"`. -/
theorem claim_C9_canvas_hash_witness :
    getCanvasFingerprint (Except.ok "data:x") = getCanvasFingerprint (Except.ok "data:x") :=
  claim_C9_canvas_hash.2.1 "data:x" "data:x" rfl

/-! ## Record creation on the src/server.js entry points. `server.js`
builds its visitor record through `FingerprintCollector`; the browser
globals read by `generateBrowserFingerprint` (`navigator.platform`,
`navigator.language`, `screen.width`, ...) are one external environment
value, whose unavailability is an exception (`Except.error`). Constant-shape
passthrough fields not examined by any claim are omitted. -/

/-- The browser-global values read by `generateBrowserFingerprint`. -/
structure NavScreenEnv where
  platform : String
  language : String
  tzOffset : Int
  screenW : Nat
  screenH : Nat
  colorDepth : Nat
deriving DecidableEq

/-- Hexadecimal rendering of `Math.abs(hash).toString(16)`. -/
def toHex16 (n : Nat) : String := ⟨Nat.toDigits 16 n⟩

/-- The value computed by `generateBrowserFingerprint` when the browser
globals are available: hash of the joined component string. -/
def browserFingerprintOf (nv : NavScreenEnv) (userAgent : String) : String :=
  let components := String.intercalate "|"
    [userAgent, nv.platform, nv.language, toString nv.tzOffset,
     toString nv.screenW ++ "x" ++ toString nv.screenH, toString nv.colorDepth]
  toHex16 (hashString components.data).natAbs

/-- `generateBrowserFingerprint` (src/fingerprint.js lines 54-72): it has no
`try`/`catch`, so an exception while reading the browser globals
propagates to the caller. -/
def generateBrowserFingerprint (env : Except String NavScreenEnv)
    (userAgent : String) : Except String String :=
  match env with
  | .error e => .error e
  | .ok nv => .ok (browserFingerprintOf nv userAgent)

/-- The fingerprint object assembled by `collectAllFingerprintData` (the
claim-relevant components). -/
structure SFingerprint where
  browserFingerprint : String
  canvas : CanvasResult
deriving DecidableEq

/-- `collectAllFingerprintData` (src/fingerprint.js lines 75-115): no local
`try`/`catch` — an exception from `generateBrowserFingerprint` aborts the
whole collection, while the canvas component degrades internally. -/
def collectAllFingerprintData (env : Except String NavScreenEnv)
    (render : Except String String) (userAgent : String) :
    Except String SFingerprint :=
  match generateBrowserFingerprint env userAgent with
  | .error e => .error e
  | .ok bf => .ok { browserFingerprint := bf, canvas := getCanvasFingerprint render }

/-- The claim-relevant fields of the record built by
`collectEnhancedUserData` in src/server.js. -/
structure ServerUserData where
  timestamp : String
  ip : Option String
  geo : Option Geo
  fingerprint : SFingerprint
  webRTC : Option String
  battery : Option String
deriving DecidableEq

/-- `collectEnhancedUserData` (src/server.js lines 59-251): the
`request-ip` result may be null, the geo lookup may miss (null geo in the
record), client-optional body data defaults to null — but the fingerprint
collection's exception propagates, aborting record creation. -/
def serverCollectEnhancedUserData (clientIp : Option String)
    (db : String → Option Geo) (env : Except String NavScreenEnv)
    (render : Except String String) (userAgent now : String)
    (bodyWebRTC bodyBattery : Option String) : Except String ServerUserData :=
  match collectAllFingerprintData env render userAgent with
  | .error e => .error e
  | .ok fp =>
    .ok { timestamp := now, ip := clientIp, geo := clientIp.bind db,
          fingerprint := fp, webRTC := bodyWebRTC, battery := bodyBattery }

/-- The `POST /api/collect` route body (src/server.js lines 324-348): the
`try`/`catch` around collection — on success the record is appended to the
log and the response succeeds; on an exception nothing is saved and the
response is a 500 failure. The `GET /` route wraps the same collect-and-save
sequence. -/
def handleCollect (clientIp : Option String) (db : String → Option Geo)
    (env : Except String NavScreenEnv) (render : Except String String)
    (userAgent now : String) (bodyWebRTC bodyBattery : Option String)
    (logs : List ServerUserData) : List ServerUserData × Bool :=
  match serverCollectEnhancedUserData clientIp db env render userAgent now
      bodyWebRTC bodyBattery with
  | .ok ud => (logs ++ [ud], true)
  | .error _ => (logs, false)

/-- Claim C2 is refuted: an exception in the browser-fingerprint enrichment
step (here, the unavailability of the `navigator`/`screen` globals in the
server process) is not caught locally — at this concrete request the
collection aborts, no record is appended, and the response reports
failure. -/
theorem claim_C2_counterexample :
    handleCollect none (fun _ => none) (Except.error "navigator is not defined")
        (Except.ok "data:img") "UA" "t0" none none [] = ([], false) ∧
    serverCollectEnhancedUserData none (fun _ => none)
        (Except.error "navigator is not defined") (Except.ok "data:img")
        "UA" "t0" none none = Except.error "navigator is not defined" := by
  exact ⟨rfl, rfl⟩

/-- Claim C2 amended: geo-lookup misses and canvas-rendering exceptions are
caught locally and replaced by null/placeholder values (the record is still
produced and saved), but an exception inside `generateBrowserFingerprint` —
which has no `try`/`catch` — propagates out of `collectAllFingerprintData`
and `collectEnhancedUserData` and aborts record creation; only the route
boundary catches it, saving nothing and reporting failure. -/
theorem claim_C2_amended :
    (∀ msg : String, getCanvasFingerprint (Except.error msg) = CanvasResult.errObj msg) ∧
    (∀ (nv : NavScreenEnv) (msg : String) (clientIp : Option String)
       (db : String → Option Geo) (ua now : String) (w b : Option String)
       (logs : List ServerUserData),
      handleCollect clientIp db (Except.ok nv) (Except.error msg) ua now w b logs
        = (logs ++ [{ timestamp := now, ip := clientIp, geo := clientIp.bind db,
                      fingerprint := { browserFingerprint := browserFingerprintOf nv ua,
                                       canvas := CanvasResult.errObj msg },
                      webRTC := w, battery := b }], true)) ∧
    (∀ (nv : NavScreenEnv) (clientIp : Option String) (render : Except String String)
       (ua now : String) (w b : Option String) (logs : List ServerUserData),
      handleCollect clientIp (fun _ => none) (Except.ok nv) render ua now w b logs
        = (logs ++ [{ timestamp := now, ip := clientIp, geo := none,
                      fingerprint := { browserFingerprint := browserFingerprintOf nv ua,
                                       canvas := getCanvasFingerprint render },
                      webRTC := w, battery := b }], true)) ∧
    (∀ (e : String) (clientIp : Option String) (db : String → Option Geo)
       (render : Except String String) (ua now : String) (w b : Option String)
       (logs : List ServerUserData),
      serverCollectEnhancedUserData clientIp db (Except.error e) render ua now w b
          = Except.error e ∧
      handleCollect clientIp db (Except.error e) render ua now w b logs = (logs, false)) := by
  refine ⟨fun msg => rfl, fun nv msg clientIp db ua now w b logs => rfl, ?_, ?_⟩
  · intro nv clientIp render ua now w b logs
    cases clientIp <;> rfl
  · intro e clientIp db render ua now w b logs
    exact ⟨rfl, rfl⟩

/-! ## CSV projection (`logToCSV`, src/unnamed/part_001 lines 302-333).
Each projected field is surrounded by double quotes with no escaping
(`.map(field => "..." )` then `.join(',')`). To state well-formedness we
also embed a standard quoted-CSV reader (RFC-4180 quoted fields, `""` as an
escaped quote). -/

/-- The fixed CSV header row of `logToCSV`. -/
def csvHeaders : List String :=
  ["timestamp", "ip", "country", "city", "browser", "browser_version",
   "os", "os_version", "device_type", "screen", "language", "timezone",
   "is_localhost"]

/-- JavaScript `geo?.f || 'Unknown'` over the optional geo sub-object. -/
def optField (g : Option GeoOut) (f : GeoOut → String) : String :=
  match g with
  | some x => orUnknown (f x)
  | none => "Unknown"

/-- The thirteen stringified field values of one CSV row, in the order of
the `row` array of `logToCSV`. -/
def logToCSVRowFields (ud : UserData) : List String :=
  [ud.timestamp,
   ud.networkIp,
   optField ud.geo (fun g => g.country),
   optField ud.geo (fun g => g.city),
   orUnknown ud.browserName,
   orUnknown ud.browserVersion,
   orUnknown ud.osName,
   orUnknown ud.osVersion,
   orUnknown ud.deviceType,
   ud.screenWidth ++ "x" ++ ud.screenHeight,
   orUnknown ⟨(splitCommaL ud.localeLanguage.data).headD []⟩,
   optField ud.geo (fun g => g.timezone),
   if ud.isLocal then "Yes" else "No"]

/-- One field as emitted: the stringified value surrounded by double-quote
characters, with no escaping of the value's own characters. -/
def quoteField (f : String) : String := "\"" ++ f ++ "\""

/-- JavaScript `Array.prototype.join(',')`. -/
def joinCommaStr : List String → String
  | [] => ""
  | [x] => x
  | x :: y :: xs => x ++ "," ++ joinCommaStr (y :: xs)

/-- The emitted CSV row of `logToCSV`. -/
def logToCSVRow (ud : UserData) : String :=
  joinCommaStr ((logToCSVRowFields ud).map quoteField)

/-- States of the quoted-CSV reader: inside a quoted field, just after a
quote while inside a field (escaped quote vs field close), or just after a
field-separating comma (an opening quote must follow). -/
inductive CsvSt where
  | inF
  | aftQ
  | aftC
deriving DecidableEq

/-- Reader for a quoted-CSV record, positioned after the opening quote of
the first field: `cur` is the field content read so far, `acc` the completed
fields; `""` is an escaped quote, and a closing quote must be followed by
`,"` or end of input. -/
def csvScan : List Char → CsvSt → List Char → List (List Char) → Option (List (List Char))
  | [], st, cur, acc =>
    match st with
    | .aftQ => some (acc ++ [cur])
    | _ => none
  | c :: rest, st, cur, acc =>
    match st with
    | .inF =>
      if c = '"' then csvScan rest .aftQ cur acc
      else csvScan rest .inF (cur ++ [c]) acc
    | .aftQ =>
      if c = '"' then csvScan rest .inF (cur ++ ['"']) acc
      else if c = ',' then csvScan rest .aftC [] (acc ++ [cur])
      else none
    | .aftC =>
      if c = '"' then csvScan rest .inF cur acc
      else none

/-- List-level reader for a full all-fields-quoted CSV record: `none` when
the line is not well-formed. -/
def parseCSVRowL (l : List Char) : Option (List (List Char)) :=
  match l with
  | '"' :: rest => csvScan rest .inF [] []
  | _ => none

/-- Reader for a full all-fields-quoted CSV record on strings. -/
def parseCSVRow (s : String) : Option (List String) :=
  (parseCSVRowL s.data).map (fun fs => fs.map String.mk)

/-- Character-level shape of the row tail after the opening quote of the
first field: current field content, closing quote, then `,"`-joined
remaining fields. -/
def joinTail : List (List Char) → List Char
  | [] => []
  | g :: gs => ',' :: '"' :: (g ++ '"' :: joinTail gs)

theorem mk_data (s : String) : String.mk s.data = s := rfl

theorem data_append (a b : String) : (a ++ b).data = a.data ++ b.data := rfl

theorem quote_data : "\"".data = ['"'] := rfl

theorem joinCommaStr_quote_data (f : String) (rest : List String) :
    (joinCommaStr ((f :: rest).map quoteField)).data
      = '"' :: (f.data ++ '"' :: joinTail (rest.map String.data)) := by
  induction rest generalizing f with
  | nil =>
    show (quoteField f).data = _
    simp [quoteField, data_append, quote_data, joinTail]
  | cons g gs ih =>
    show (quoteField f ++ "," ++ joinCommaStr ((g :: gs).map quoteField)).data = _
    rw [data_append, data_append, ih g]
    simp [quoteField, data_append, quote_data, joinTail]

theorem csvScan_skip (f : List Char) (hq : ('"' : Char) ∉ f) :
    ∀ (l cur : List Char) (acc : List (List Char)),
      csvScan (f ++ l) CsvSt.inF cur acc = csvScan l CsvSt.inF (cur ++ f) acc := by
  induction f with
  | nil => intro l cur acc; simp
  | cons c t ih =>
    intro l cur acc
    have hc : c ≠ '"' := fun h => hq (h ▸ List.mem_cons_self c t)
    have ht : ('"' : Char) ∉ t := fun h => hq (List.mem_cons_of_mem c h)
    show csvScan (c :: (t ++ l)) CsvSt.inF cur acc = _
    rw [csvScan, if_neg hc, ih ht l (cur ++ [c]) acc]
    simp

theorem csvScan_fields :
    ∀ (rest : List (List Char)), (∀ g ∈ rest, ('"' : Char) ∉ g) →
      ∀ (f : List Char), ('"' : Char) ∉ f →
        ∀ (cur : List Char) (acc : List (List Char)),
          csvScan (f ++ '"' :: joinTail rest) CsvSt.inF cur acc
            = some (acc ++ (cur ++ f) :: rest) := by
  intro rest
  induction rest with
  | nil =>
    intro _ f hf cur acc
    rw [csvScan_skip f hf]
    show csvScan ('"' :: joinTail []) CsvSt.inF (cur ++ f) acc = _
    rw [csvScan, if_pos rfl]
    show csvScan [] CsvSt.aftQ (cur ++ f) acc = _
    rw [csvScan]
  | cons g gs ih =>
    intro hrest f hf cur acc
    rw [csvScan_skip f hf]
    show csvScan ('"' :: joinTail (g :: gs)) CsvSt.inF (cur ++ f) acc = _
    rw [csvScan, if_pos rfl]
    show csvScan (',' :: '"' :: (g ++ '"' :: joinTail gs)) CsvSt.aftQ (cur ++ f) acc = _
    rw [csvScan, if_neg (by decide), if_pos rfl]
    show csvScan ('"' :: (g ++ '"' :: joinTail gs)) CsvSt.aftC [] (acc ++ [cur ++ f]) = _
    rw [csvScan, if_pos rfl]
    have hg : ('"' : Char) ∉ g := hrest g (List.mem_cons_self g gs)
    have hgs : ∀ x ∈ gs, ('"' : Char) ∉ x := fun x hx => hrest x (List.mem_cons_of_mem g hx)
    rw [ih hgs g hg [] (acc ++ [cur ++ f])]
    simp

theorem parseCSVRow_of_no_quote (fields : List String) (hne : fields ≠ [])
    (hq : ∀ f ∈ fields, ('"' : Char) ∉ f.data) :
    parseCSVRow (joinCommaStr (fields.map quoteField)) = some fields := by
  match fields, hne with
  | f :: rest, _ =>
    unfold parseCSVRow
    rw [joinCommaStr_quote_data f rest]
    have hf : ('"' : Char) ∉ f.data := hq f (List.mem_cons_self f rest)
    have hrest : ∀ g ∈ rest.map String.data, ('"' : Char) ∉ g := by
      intro g hg
      rcases List.mem_map.mp hg with ⟨x, hx, hxg⟩
      exact hxg ▸ hq x (List.mem_cons_of_mem f hx)
    show (csvScan (f.data ++ '"' :: joinTail (rest.map String.data)) CsvSt.inF [] []).map
        (fun fs => fs.map String.mk) = _
    rw [csvScan_fields (rest.map String.data) hrest f.data hf [] []]
    have hmaps : List.map String.mk (List.map String.data rest) = rest := by
      rw [List.map_map, show (String.mk ∘ String.data) = id from funext mk_data, List.map_id]
    simp [hmaps, mk_data]

/-- A concrete visitor record whose parsed browser name carries an embedded
double quote. -/
def quoteUserData : UserData :=
  { timestamp := "2024-01-01T00:00:00.000Z", sessionId := "s1", isLocal := false,
    networkIp := "8.8.8.8", geo := none,
    browserName := "Fire\"fox", browserVersion := "1.0",
    osName := "Linux", osVersion := "6.0", deviceType := "desktop",
    screenWidth := "800", screenHeight := "600", localeLanguage := "en-US" }

/-- Claim C10: every CSV field is emitted as its value surrounded by double
quotes with no escaping; a record whose thirteen projected values are
quote-free round-trips through a quoted-CSV reader into exactly as many
columns as the fixed header row, while the record `quoteUserData` (browser
name containing a double quote) emits a row that is not a well-formed
quoted-CSV record. -/
theorem claim_C10_csv_quoting :
    csvHeaders.length = 13 ∧
    (∀ ud : UserData, (∀ f ∈ logToCSVRowFields ud, ('"' : Char) ∉ f.data) →
      parseCSVRow (logToCSVRow ud) = some (logToCSVRowFields ud) ∧
      (logToCSVRowFields ud).length = csvHeaders.length) ∧
    parseCSVRow (logToCSVRow quoteUserData) = none := by
  refine ⟨rfl, ?_, by decide⟩
  intro ud hq
  exact ⟨parseCSVRow_of_no_quote (logToCSVRowFields ud) (by simp [logToCSVRowFields]) hq, rfl⟩

/-- Witness for claim C10 at a concrete quote-free record: its emitted row
parses back into its thirteen field values. -/
theorem claim_C10_csv_quoting_witness :
    parseCSVRow (logToCSVRow
        { timestamp := "2024-01-01T00:00:00.000Z", sessionId := "s1", isLocal := true,
          networkIp := "127.0.0.1", geo := none,
          browserName := "Firefox", browserVersion := "1.0",
          osName := "Linux", osVersion := "6.0", deviceType := "desktop",
          screenWidth := "800", screenHeight := "600", localeLanguage := "en-US" })
      = some (logToCSVRowFields
        { timestamp := "2024-01-01T00:00:00.000Z", sessionId := "s1", isLocal := true,
          networkIp := "127.0.0.1", geo := none,
          browserName := "Firefox", browserVersion := "1.0",
          osName := "Linux", osVersion := "6.0", deviceType := "desktop",
          screenWidth := "800", screenHeight := "600", localeLanguage := "en-US" }) ∧
    (logToCSVRowFields
        { timestamp := "2024-01-01T00:00:00.000Z", sessionId := "s1", isLocal := true,
          networkIp := "127.0.0.1", geo := none,
          browserName := "Firefox", browserVersion := "1.0",
          osName := "Linux", osVersion := "6.0", deviceType := "desktop",
          screenWidth := "800", screenHeight := "600", localeLanguage := "en-US" }).length
      = csvHeaders.length :=
  (claim_C10_csv_quoting.2.1
    { timestamp := "2024-01-01T00:00:00.000Z", sessionId := "s1", isLocal := true,
      networkIp := "127.0.0.1", geo := none,
      browserName := "Firefox", browserVersion := "1.0",
      osName := "Linux", osVersion := "6.0", deviceType := "desktop",
      screenWidth := "800", screenHeight := "600", localeLanguage := "en-US" }
    (by decide))

end Turcuaz
